import Mathlib

/-!
Verification development for the `botid` package: a shallow embedding of
its core (message signing/verification, the inbound verification
middleware state machine, the device-authorization poll loop, and the
credential store's read path), with theorems checking the design
document's claims against the code.

Conventions of the embedding:
* JavaScript numbers appearing in this protocol are whole seconds
  (`Math.floor(Date.now() / 1000)`), so they are modelled as `Int`,
  extended with a `nan` value for `Number(s)` of a non-numeric string.
* `Date.now()` is modelled by an explicit `now` parameter, frozen for
  the duration of one middleware invocation.
* `node:crypto` is an external collaborator; it is modelled by a
  structure of abstract operations (`CryptoApi`), with the documented
  Ed25519 contract captured as proof fields in `CryptoSpec`.
* The filesystem behind the credential store is modelled by an explicit
  file-state value, and `JSON.parse` by a parse function into a JSON
  value tree (`Json`), so that the untyped property accesses of the
  store code can be given their real JavaScript semantics.
-/

/-- JS number restricted to the values that occur in this protocol:
integers (timestamps are whole seconds) and `NaN` (the result of
`Number(s)` for a non-numeric string `s`). -/
inductive JSNum where
  | nan : JSNum
  | int (v : Int) : JSNum
deriving DecidableEq, Repr

/-- `${n}` string interpolation of a JS number (integer-valued case). -/
def jsNumToString : JSNum → String
  | .nan => "NaN"
  | .int v => toString v

/-- verify.ts line 8: `TIMESTAMP_WINDOW_SECONDS = 300`. -/
def TIMESTAMP_WINDOW_SECONDS : Nat := 300

/-- verify.ts lines 14-17: `isTimestampValid(timestamp)` returns
`Math.abs(now - timestamp) <= 300` where `now = Math.floor(Date.now()/1000)`
is passed explicitly here.  `Math.abs(now - NaN)` is `NaN`, and
`NaN <= 300` is false, hence the `nan` case returns `false`. -/
def isTimestampValid (now : Int) (timestamp : JSNum) : Bool :=
  match timestamp with
  | .nan => false
  | .int t => (now - t).natAbs ≤ TIMESTAMP_WINDOW_SECONDS

/-- JS `String.prototype.toUpperCase` (ASCII range, which is all this
protocol uses for HTTP methods). -/
def toUpperCase (s : String) : String := String.mk (s.data.map Char.toUpper)

/-- JS `String.prototype.toLowerCase` (ASCII range, used on header names). -/
def toLowerCase (s : String) : String := String.mk (s.data.map Char.toLower)

/-- JS `s.split("?")[0]`: for a one-character separator, element 0 of the
split is exactly the longest prefix of `s` not containing that
character. -/
def splitQueryHead (s : String) : String :=
  String.mk (s.data.takeWhile (fun c => c ≠ '?'))

/-- JS truthiness of a `string | undefined` value: `undefined` and the
empty string are falsy, every other string is truthy. -/
def truthy : Option String → Bool
  | none => false
  | some s => s ≠ ""

/-- verify.ts line 3: `HEADER_BOT_ID = "X-BotID"`. -/
def HEADER_BOT_ID : String := "X-BotID"

/-- verify.ts line 4: `HEADER_SIGNATURE = "X-BotID-Signature"`. -/
def HEADER_SIGNATURE : String := "X-BotID-Signature"

/-- verify.ts line 5: `HEADER_TIMESTAMP = "X-BotID-Timestamp"`. -/
def HEADER_TIMESTAMP : String := "X-BotID-Timestamp"

/-! ## Hex codec

`Buffer.from(hex, "hex")` / `buf.toString("hex")`, modelled concretely
over byte lists (`List (Fin 256)`).  Node's hex decoder consumes pairs
of hex digits (either case) and stops at the first invalid or
incomplete pair, without throwing. -/

/-- Lowercase hex digit for a value below 16 (`buf.toString("hex")`
emits lowercase). -/
def hexDigit (x : Fin 16) : Char :=
  if x.val < 10 then Char.ofNat (48 + x.val) else Char.ofNat (97 + x.val - 10)

/-- Numeric value of a hex digit character; `none` for a non-hex
character.  48-57 are `0`-`9`, 97-102 are `a`-`f`, 65-70 are `A`-`F`. -/
def hexDigitVal (c : Char) : Option (Fin 16) :=
  if h : 48 ≤ c.toNat ∧ c.toNat ≤ 57 then some ⟨c.toNat - 48, by omega⟩
  else if h : 97 ≤ c.toNat ∧ c.toNat ≤ 102 then some ⟨c.toNat - 97 + 10, by omega⟩
  else if h : 65 ≤ c.toNat ∧ c.toNat ≤ 70 then some ⟨c.toNat - 65 + 10, by omega⟩
  else none

/-- Two-character hex encoding of one byte. -/
def hexEncodeByte (b : Fin 256) : List Char :=
  [hexDigit ⟨b.val / 16, by omega⟩, hexDigit ⟨b.val % 16, by omega⟩]

/-- `buf.toString("hex")`. -/
def hexEncode (bs : List (Fin 256)) : String :=
  String.mk (bs.map hexEncodeByte).flatten

/-- Decoding loop of `Buffer.from(s, "hex")`: consume pairs of hex
digits, stop (silently) at the first invalid or incomplete pair. -/
def hexDecodeAux : List Char → List (Fin 256)
  | c1 :: c2 :: rest =>
    match hexDigitVal c1, hexDigitVal c2 with
    | some hi, some lo => ⟨hi.val * 16 + lo.val, by omega⟩ :: hexDecodeAux rest
    | _, _ => []
  | _ => []

/-- `Buffer.from(s, "hex")`: total, never throws. -/
def hexDecode (s : String) : List (Fin 256) :=
  hexDecodeAux s.data

theorem hexDigitVal_hexDigit : ∀ x : Fin 16, hexDigitVal (hexDigit x) = some x := by
  decide

theorem hexDecodeAux_encode (bs : List (Fin 256)) :
    hexDecodeAux (bs.map hexEncodeByte).flatten = bs := by
  induction bs with
  | nil => rfl
  | cons b rest ih =>
    simp only [List.map_cons, List.flatten, List.cons_append, hexEncodeByte,
      List.nil_append, hexDecodeAux, hexDigitVal_hexDigit]
    refine congrArg₂ List.cons (Fin.ext ?_) ih
    show (b : Nat) / 16 * 16 + (b : Nat) % 16 = (b : Nat)
    omega

/-- Hex round-trip: decoding an encoded byte list recovers it. -/
theorem hexDecode_hexEncode (bs : List (Fin 256)) :
    hexDecode (hexEncode bs) = bs := by
  simpa only [hexDecode, hexEncode] using hexDecodeAux_encode bs

/-! ## Crypto layer

`node:crypto` is outside this repository; it is modelled as a structure
of abstract operations.  `createPublicKey`, `createPrivateKey` and
`verify` may throw, modelled by `Except`; a message enters the
primitives as `Buffer.from(message)` (UTF-8), which is injective, so
messages stay `String` here. -/

/-- Operational model of the `node:crypto` calls the code makes.
`Pub`/`Priv` are the opaque `KeyObject` types. -/
structure CryptoApi (Pub Priv : Type) where
  createPublicKey : List (Fin 256) → Except String Pub
  createPrivateKey : List (Fin 256) → Except String Priv
  sign : String → Priv → List (Fin 256)
  verify : String → Pub → List (Fin 256) → Except String Bool

/-- `CryptoApi` together with the documented Ed25519 / DER-codec
contract: re-importing an exported key yields the same key object, and
a signature by the private half of a generated pair verifies under the
public half.  `generate` models `crypto.generateKeyPairSync("ed25519")`,
indexed by its entropy draw. -/
structure CryptoSpec (Pub Priv : Type) extends CryptoApi Pub Priv where
  generate : Nat → Pub × Priv
  exportSpki : Pub → List (Fin 256)
  exportPkcs8 : Priv → List (Fin 256)
  import_spki : ∀ pk, createPublicKey (exportSpki pk) = .ok pk
  import_pkcs8 : ∀ sk, createPrivateKey (exportPkcs8 sk) = .ok sk
  verify_sign : ∀ m n, verify m (generate n).1 (sign m (generate n).2) = .ok true

/-- verify.ts lines 19-26: `signMessage(message, privateKeyHex)` decodes
the hex private key, imports it as PKCS8 DER (this import may throw —
there is no try/catch here, hence `Except`), signs, and hex-encodes the
signature. -/
def signMessage {Pub Priv : Type} (api : CryptoApi Pub Priv)
    (message privateKeyHex : String) : Except String String :=
  (api.createPrivateKey (hexDecode privateKeyHex)).map
    (fun sk => hexEncode (api.sign message sk))

/-- verify.ts lines 28-48: `verifySignature(message, signatureHex,
publicKeyHex)` imports the hex public key as SPKI DER and verifies; the
whole body is wrapped in `try { ... } catch { return false }`, so any
throw from key import or verification becomes `false`.  The function is
total: it never raises. -/
def verifySignature {Pub Priv : Type} (api : CryptoApi Pub Priv)
    (message signatureHex publicKeyHex : String) : Bool :=
  match api.createPublicKey (hexDecode publicKeyHex) with
  | .error _ => false
  | .ok pk =>
    match api.verify message pk (hexDecode signatureHex) with
    | .error _ => false
    | .ok b => b

/-- verify.ts lines 51-57: `generateKeypair()` returns hex-encoded SPKI
DER (public) and PKCS8 DER (private) of a fresh Ed25519 pair. -/
def generateKeypair {Pub Priv : Type} (api : CryptoSpec Pub Priv) (n : Nat) :
    String × String :=
  (hexEncode (api.exportSpki (api.generate n).1),
   hexEncode (api.exportPkcs8 (api.generate n).2))

/-- A concrete inhabitant of `CryptoSpec`, showing the crypto contract
is satisfiable (key objects are bytes; a signature is the private key
itself and verifies iff it equals the public key). -/
def toySpec : CryptoSpec (Fin 256) (Fin 256) where
  createPublicKey l := match l with | [b] => .ok b | _ => .error "bad key"
  createPrivateKey l := match l with | [b] => .ok b | _ => .error "bad key"
  sign _ sk := [sk]
  verify _ pk sig := .ok (sig == [pk])
  generate n := (⟨n % 256, Nat.mod_lt n (by omega)⟩, ⟨n % 256, Nat.mod_lt n (by omega)⟩)
  exportSpki pk := [pk]
  exportPkcs8 sk := [sk]
  import_spki := fun _ => rfl
  import_pkcs8 := fun _ => rfl
  verify_sign := fun _ _ => by simp

/-- C5: for every message, signature-hex and public-key-hex — including
non-hex strings and malformed key or signature material — `verifySignature`
never raises (it is a total `Bool`-valued function) and returns `false`
whenever key import or verification fails. -/
theorem verifySignature_fail_closed {Pub Priv : Type} (api : CryptoApi Pub Priv)
    (message signatureHex publicKeyHex : String)
    (hfail : (api.createPublicKey (hexDecode publicKeyHex)).isOk = false ∨
      ∃ pk, api.createPublicKey (hexDecode publicKeyHex) = .ok pk ∧
        (api.verify message pk (hexDecode signatureHex)).isOk = false) :
    verifySignature api message signatureHex publicKeyHex = false := by
  unfold verifySignature
  rcases hk : api.createPublicKey (hexDecode publicKeyHex) with e | pk
  · rfl
  · rcases hfail with h | ⟨pk2, hpk2, hv⟩
    · rw [hk] at h; simp [Except.isOk, Except.toBool] at h
    · rw [hk] at hpk2
      injection hpk2 with heq
      subst heq
      change (match api.verify message pk (hexDecode signatureHex) with
        | .error _ => false | .ok b => b) = false
      rcases hv2 : api.verify message pk (hexDecode signatureHex) with e | b
      · rfl
      · rw [hv2] at hv; simp [Except.isOk, Except.toBool] at hv

/-- Witness for C5: the toy api rejects the empty key material decoded
from a non-hex public-key string. -/
theorem verifySignature_fail_closed_witness :
    verifySignature toySpec.toCryptoApi "msg" "zz" "not-hex!" = false :=
  verifySignature_fail_closed toySpec.toCryptoApi "msg" "zz" "not-hex!"
    (Or.inl (by decide))

/-- C6: for every message `m` and every keypair `(pub, priv)` produced by
`generateKeypair`, signing `m` with `priv` succeeds and the resulting
signature verifies under `pub`, for any crypto backend satisfying the
Ed25519/DER contract (`CryptoSpec`). -/
theorem sign_verify_roundtrip {Pub Priv : Type} (api : CryptoSpec Pub Priv)
    (m : String) (n : Nat) :
    ∃ sig, signMessage api.toCryptoApi m (generateKeypair api n).2 = .ok sig ∧
      verifySignature api.toCryptoApi m sig (generateKeypair api n).1 = true := by
  refine ⟨hexEncode (api.sign m (api.generate n).2), ?_, ?_⟩
  · simp [signMessage, generateKeypair, hexDecode_hexEncode, api.import_pkcs8,
      Except.map]
  · simp [verifySignature, generateKeypair, hexDecode_hexEncode, api.import_spki,
      api.verify_sign]

/-! ## Signed-message construction

client.ts builds the string the client signs; middleware.ts rebuilds it
from the inbound request's method and URL.  A parsed URL is modelled by
its `pathname` (which, per WHATWG URL parsing, never contains a raw `?`
— one would be percent-encoded) and its optional query string; the
request target that `fetch` puts on the wire, and that Express exposes
as `req.url` / `req.originalUrl`, is `pathname` followed by
`"?" + query` when a query is present. -/

/-- client.ts lines 142-145: the string the client signs,
`${timestamp}.${botId}.${method.toUpperCase()}.${new URL(url).pathname}`. -/
def clientSignedMessage (timestamp : Int) (botId method pathname : String) : String :=
  toString timestamp ++ "." ++ botId ++ "." ++ toUpperCase method ++ "." ++ pathname

/-- middleware.ts lines 169-171: the string the middleware reconstructs,
`${timestamp}.${botId}.${reqMethod.toUpperCase()}.${reqUrl.split("?")[0]}`. -/
def serverReconstructedMessage (timestamp : Int) (botId reqMethod reqUrl : String) :
    String :=
  toString timestamp ++ "." ++ botId ++ "." ++ toUpperCase reqMethod ++ "." ++
    splitQueryHead reqUrl

/-- The request target on the wire for a URL with the given `pathname`
and optional query (fragments are never sent in an HTTP request). -/
def wireUrl (pathname : String) (query : Option String) : String :=
  pathname ++ (match query with | none => "" | some q => "?" ++ q)

theorem takeWhile_append_of_forall {p : Char → Bool} (xs ys : List Char)
    (h : ∀ c ∈ xs, p c = true) :
    (xs ++ ys).takeWhile p = xs ++ ys.takeWhile p := by
  induction xs with
  | nil => rfl
  | cons x xs ih =>
    have hx := h x (List.mem_cons_self x xs)
    simp only [List.cons_append, List.takeWhile, hx]
    exact congrArg (List.cons x) (ih fun c hc => h c (List.mem_cons_of_mem x hc))

theorem splitQueryHead_wireUrl (pathname : String) (query : Option String)
    (h : '?' ∉ pathname.data) :
    splitQueryHead (wireUrl pathname query) = pathname := by
  have hall : ∀ c ∈ pathname.data, (fun c => decide (c ≠ '?')) c = true := by
    intro c hc
    simp only [ne_eq, decide_eq_true_eq]
    exact fun he => h (he ▸ hc)
  cases query with
  | none =>
    show String.mk ((pathname.data ++ "".data).takeWhile _) = pathname
    rw [takeWhile_append_of_forall _ _ hall]
    cases pathname
    simp
  | some q =>
    show String.mk ((pathname.data ++ ('?' :: q.data)).takeWhile _) = pathname
    rw [takeWhile_append_of_forall _ _ hall]
    simp only [List.takeWhile]
    cases pathname
    simp

/-- C3: the signer and verifier use the identical signed-message
construction rule: for any timestamp, bot id, method and parsed URL
(pathname without a raw `?`, plus optional query), the string the
client signs equals the string the middleware reconstructs from the
wire method (equal up to upper-casing, since `fetch` may normalize the
method's case) and the wire request target. -/
theorem signer_verifier_same_message (timestamp : Int) (botId method wireMethod
    pathname : String) (query : Option String)
    (hpath : '?' ∉ pathname.data)
    (hmethod : toUpperCase wireMethod = toUpperCase method) :
    serverReconstructedMessage timestamp botId wireMethod (wireUrl pathname query) =
      clientSignedMessage timestamp botId method pathname := by
  unfold serverReconstructedMessage clientSignedMessage
  rw [hmethod, splitQueryHead_wireUrl pathname query hpath]

/-- Witness for C3: a lowercase client method, an uppercase wire method,
and a URL with a query string. -/
theorem signer_verifier_same_message_witness :
    serverReconstructedMessage 1700000000 "bot_abc123" "POST"
        (wireUrl "/api/data" (some "x=1&y=2")) =
      clientSignedMessage 1700000000 "bot_abc123" "post" "/api/data" :=
  signer_verifier_same_message 1700000000 "bot_abc123" "post" "POST"
    "/api/data" (some "x=1&y=2") (by decide) (by decide)

/-! ## Verification middleware

middleware.ts `verifyBotID`: the inbound verification state machine.
The returned Express handler is modelled as a pure function from the
request (plus explicit models of time, `Number` coercion, the crypto
backend and the registry lookup's outcome) to the final state: the
value of `req.BotID` and how control left the handler. -/

/-- A value of Node's `req.headers` map: a string or a string array. -/
inductive HVal where
  | one (s : String)
  | many (xs : List String)
deriving DecidableEq, Repr

/-- The part of the Express request the middleware reads (header names
are lowercased by Node before they reach `req.headers`). -/
structure MWRequest where
  headers : List (String × HVal)
  method : Option String
  url : Option String
  originalUrl : Option String
deriving DecidableEq, Repr

/-- middleware.ts lines 207-211: `getHeader` reads
`req.headers[name.toLowerCase()]`; for an array value it takes element 0
(`undefined` when the array is empty). -/
def getHeader (req : MWRequest) (name : String) : Option String :=
  match req.headers.lookup (toLowerCase name) with
  | none => none
  | some (.one s) => some s
  | some (.many xs) => xs.head?

/-- The `bot` object of a verification result (client.ts lines 111-115). -/
structure BotInfo where
  id : String
  name : String
  deployer_id : String
deriving DecidableEq, Repr

/-- client.ts lines 109-120: `VerificationResult`. -/
structure VerificationResult where
  verified : Bool
  bot : Option BotInfo
  timestamp : JSNum
  error : Option String
  revoked : Option Bool
deriving DecidableEq, Repr

/-- The JSON body of a default rejection response: an `error` string
and, for the revoked case, `revoked: true`. -/
structure JsonBody where
  error : Option String
  revoked : Option Bool
deriving DecidableEq, Repr

/-- How control leaves one middleware invocation. -/
inductive MWOutcome where
  | respond (status : Nat) (body : JsonBody)
  | overridden
  | next
deriving DecidableEq, Repr

/-- Final state of one middleware invocation: the value left in
`req.BotID` (none if never assigned) and the outcome. -/
structure MWState where
  botID : Option VerificationResult
  outcome : MWOutcome
deriving DecidableEq, Repr

/-- Outcome of `fetch(apiUrl + "/api/keys/" + botId)` with its body:
a 403 whose JSON body has a truthy `revoked`; a 403 without it (falls
through to the not-ok check and is thrown); a success carrying
`publicKey`; or any other failure (non-ok status, network error, body
parse error), which lands in the handler's catch. -/
inductive KeysOutcome where
  | revokedResponse
  | notRevoked403
  | success (publicKey : String)
  | failure
deriving DecidableEq, Repr

/-- The repeated rejection idiom: `if (options.onUnverified) return
options.onUnverified(req, res); return res.status(code).json(body)`. -/
def rejectOr (hasOnUnverified : Bool) (status : Nat) (body : JsonBody) : MWOutcome :=
  if hasOnUnverified then .overridden else .respond status body

/-- middleware.ts lines 99-205: the handler `verifyBotID(options)`
returns.  `requireVerified` is `options.requireVerified ?? true`;
`hasOnUnverified` is whether `options.onUnverified` was supplied;
`jsNumber` models the JS `Number` coercion applied to the timestamp
header; `now` models `Math.floor(Date.now() / 1000)`, frozen for the
invocation; `keys` is the registry lookup's outcome (only consulted on
the paths that reach the lookup). -/
def verifyBotID {Pub Priv : Type} (api : CryptoApi Pub Priv)
    (requireVerified hasOnUnverified : Bool) (jsNumber : String → JSNum)
    (now : Int) (keys : KeysOutcome) (req : MWRequest) : MWState :=
  let botId := getHeader req HEADER_BOT_ID
  let signature := getHeader req HEADER_SIGNATURE
  let timestampRaw := getHeader req HEADER_TIMESTAMP
  if !truthy botId && !truthy signature && !truthy timestampRaw then
    if requireVerified then
      ⟨none, rejectOr hasOnUnverified 403 ⟨some "BotID verification required", none⟩⟩
    else
      ⟨some ⟨false, none, .int now, none, none⟩, .next⟩
  else if !truthy botId || !truthy signature || !truthy timestampRaw then
    if requireVerified then
      ⟨none, rejectOr hasOnUnverified 400 ⟨some "Incomplete BotID headers", none⟩⟩
    else
      ⟨some ⟨false, none, .int now, none, none⟩, .next⟩
  else
    let timestamp := jsNumber (timestampRaw.getD "")
    if !isTimestampValid now timestamp then
      let result : VerificationResult :=
        ⟨false, none, timestamp, some "Timestamp outside valid window", none⟩
      if requireVerified then
        ⟨some result, rejectOr hasOnUnverified 403
          ⟨some "Timestamp outside valid window", none⟩⟩
      else ⟨some result, .next⟩
    else
      match keys with
      | .revokedResponse =>
        let result : VerificationResult :=
          ⟨false, none, timestamp, some "Bot identity has been revoked", some true⟩
        if requireVerified then
          ⟨some result, rejectOr hasOnUnverified 403
            ⟨some "Bot identity has been revoked", some true⟩⟩
        else ⟨some result, .next⟩
      | .success publicKey =>
        let reqPath := splitQueryHead ((req.originalUrl.orElse fun _ => req.url).getD "/")
        let reqMethod := toUpperCase (req.method.getD "GET")
        let message := jsNumToString timestamp ++ "." ++ botId.getD "" ++ "." ++
          reqMethod ++ "." ++ reqPath
        let verified := verifySignature api message (signature.getD "") publicKey
        let result : VerificationResult :=
          if verified then
            ⟨true, some ⟨botId.getD "", botId.getD "", ""⟩, timestamp, none, none⟩
          else ⟨false, none, timestamp, none, none⟩
        if !verified && requireVerified then
          ⟨some result, rejectOr hasOnUnverified 403
            ⟨some "Bot identity verification failed", none⟩⟩
        else ⟨some result, .next⟩
      | .notRevoked403 | .failure =>
        let result : VerificationResult :=
          ⟨false, none, .int now, some "Verification service unavailable", none⟩
        if requireVerified then
          ⟨some result, rejectOr hasOnUnverified 503
            ⟨some "BotID verification service unavailable", none⟩⟩
        else ⟨some result, .next⟩

/-- C4: For every current time `now` (whole seconds), `isTimestampValid t`
returns true for every timestamp `t` with `now - 300 ≤ t ≤ now + 300`
inclusive, and returns false at `t = now - 301` and `t = now + 301`. -/
theorem isTimestampValid_window (now t : Int)
    (hlo : now - 300 ≤ t) (hhi : t ≤ now + 300) :
    isTimestampValid now (.int t) = true ∧
    isTimestampValid now (.int (now - 301)) = false ∧
    isTimestampValid now (.int (now + 301)) = false := by
  refine ⟨?_, ?_, ?_⟩ <;>
    simp only [isTimestampValid, TIMESTAMP_WINDOW_SECONDS,
      decide_eq_true_eq, decide_eq_false_iff_not] <;>
    omega

/-- Witness for C4 at `now = 1000`, `t = 700`. -/
theorem isTimestampValid_window_witness :
    isTimestampValid 1000 (.int 700) = true ∧
    isTimestampValid 1000 (.int (1000 - 301)) = false ∧
    isTimestampValid 1000 (.int (1000 + 301)) = false :=
  isTimestampValid_window 1000 700 (by decide) (by decide)

/-- C1 (counterexample to the claim as stated): with enforcement on and
no override handler, a request with no identity headers is rejected
with 403 "BotID verification required" while `req.BotID` is never
assigned — the verification result is not attached on this path. -/
theorem result_attach_counterexample :
    (verifyBotID toySpec.toCryptoApi true false (fun _ => .nan) 0 .failure
      ⟨[], none, none, none⟩).botID = none ∧
    (verifyBotID toySpec.toCryptoApi true false (fun _ => .nan) 0 .failure
      ⟨[], none, none, none⟩).outcome =
      .respond 403 ⟨some "BotID verification required", none⟩ := by
  decide

/-- C1 (amended): the middleware attaches a verification result to the
request context before control passes onward on every path EXCEPT the
no-identity-headers and incomplete-headers rejections with enforcement
on: whenever `requireVerified` is off, or all three identity headers
are present with truthy values, the final state carries a result —
including the stale-timestamp, revoked, invalid-signature and
lookup-failure rejection paths. -/
theorem result_attached_on_late_paths {Pub Priv : Type} (api : CryptoApi Pub Priv)
    (requireVerified hasOnUnverified : Bool) (jsNumber : String → JSNum)
    (now : Int) (keys : KeysOutcome) (req : MWRequest)
    (h : requireVerified = false ∨
      (truthy (getHeader req HEADER_BOT_ID) = true ∧
       truthy (getHeader req HEADER_SIGNATURE) = true ∧
       truthy (getHeader req HEADER_TIMESTAMP) = true)) :
    (verifyBotID api requireVerified hasOnUnverified jsNumber now keys
      req).botID.isSome = true := by
  unfold verifyBotID
  rcases h with h | ⟨hb, hs, ht⟩
  · subst h
    (repeat' split) <;> simp_all <;> (repeat' split) <;> simp_all
  · simp only [hb, hs, ht, Bool.not_true, Bool.false_and, Bool.and_false,
      Bool.false_or, Bool.or_false, Bool.or_self]
    (repeat' split) <;> simp_all

/-- Witness for C1 (amended): with enforcement off, a request with no
identity headers still gets a result attached. -/
theorem result_attached_on_late_paths_witness :
    (verifyBotID toySpec.toCryptoApi false false (fun _ => .nan) 0 .failure
      ⟨[], none, none, none⟩).botID.isSome = true :=
  result_attached_on_late_paths toySpec.toCryptoApi false false (fun _ => .nan)
    0 .failure ⟨[], none, none, none⟩ (Or.inl rfl)

/-- C2: with all three identity headers present and a fresh timestamp,
a registry lookup signalling explicit revocation yields, with
enforcement on and no override, a 403 whose body carries
`revoked: true`; with enforcement off (any override setting) it calls
`next()` after attaching a result with `verified = false` and
`revoked = true`. -/
theorem revoked_lookup_behavior {Pub Priv : Type} (api : CryptoApi Pub Priv)
    (jsNumber : String → JSNum) (now : Int) (req : MWRequest)
    (hb : truthy (getHeader req HEADER_BOT_ID) = true)
    (hs : truthy (getHeader req HEADER_SIGNATURE) = true)
    (ht : truthy (getHeader req HEADER_TIMESTAMP) = true)
    (hfresh : isTimestampValid now
      (jsNumber ((getHeader req HEADER_TIMESTAMP).getD "")) = true) :
    (verifyBotID api true false jsNumber now .revokedResponse req =
      ⟨some ⟨false, none, jsNumber ((getHeader req HEADER_TIMESTAMP).getD ""),
          some "Bot identity has been revoked", some true⟩,
        .respond 403 ⟨some "Bot identity has been revoked", some true⟩⟩) ∧
    ∀ hasOnUnverified,
      verifyBotID api false hasOnUnverified jsNumber now .revokedResponse req =
        ⟨some ⟨false, none, jsNumber ((getHeader req HEADER_TIMESTAMP).getD ""),
          some "Bot identity has been revoked", some true⟩, .next⟩ := by
  constructor
  · unfold verifyBotID
    simp [hb, hs, ht, hfresh, rejectOr]
  · intro hasOnUnverified
    unfold verifyBotID
    simp [hb, hs, ht, hfresh]

/-- Witness for C2 at a concrete request with fresh timestamp 100. -/
theorem revoked_lookup_behavior_witness :
    verifyBotID toySpec.toCryptoApi true false (fun _ => .int 100) 100
      .revokedResponse
      ⟨[("x-botid", .one "bot_1"), ("x-botid-signature", .one "sig"),
        ("x-botid-timestamp", .one "100")], some "GET", some "/a", none⟩ =
    ⟨some ⟨false, none, .int 100, some "Bot identity has been revoked", some true⟩,
      .respond 403 ⟨some "Bot identity has been revoked", some true⟩⟩ :=
  (revoked_lookup_behavior toySpec.toCryptoApi (fun _ => .int 100) 100
    ⟨[("x-botid", .one "bot_1"), ("x-botid-signature", .one "sig"),
      ("x-botid-timestamp", .one "100")], some "GET", some "/a", none⟩
    (by decide) (by decide) (by decide) (by decide)).1

/-- C9: with all three identity headers present but a timestamp header
whose value is not a decimal number (`Number` coerces it to `NaN`), the
middleware takes the stale-timestamp branch: with enforcement on and no
override it responds 403 "Timestamp outside valid window" with the
result attached.  The registry outcome `keys` is universally
quantified and absent from the right-hand side: the registry lookup is
never consulted; and the function is total, so no exception is
raised. -/
theorem nan_timestamp_rejected {Pub Priv : Type} (api : CryptoApi Pub Priv)
    (jsNumber : String → JSNum) (now : Int) (keys : KeysOutcome) (req : MWRequest)
    (hb : truthy (getHeader req HEADER_BOT_ID) = true)
    (hs : truthy (getHeader req HEADER_SIGNATURE) = true)
    (ht : truthy (getHeader req HEADER_TIMESTAMP) = true)
    (hnan : jsNumber ((getHeader req HEADER_TIMESTAMP).getD "") = .nan) :
    verifyBotID api true false jsNumber now keys req =
      ⟨some ⟨false, none, .nan, some "Timestamp outside valid window", none⟩,
        .respond 403 ⟨some "Timestamp outside valid window", none⟩⟩ := by
  unfold verifyBotID
  simp [hb, hs, ht, hnan, isTimestampValid, rejectOr]

/-- Witness for C9 with timestamp header "abc". -/
theorem nan_timestamp_rejected_witness :
    verifyBotID toySpec.toCryptoApi true false
      (fun s => if s = "abc" then .nan else .int 0) 100 .revokedResponse
      ⟨[("x-botid", .one "bot_1"), ("x-botid-signature", .one "sig"),
        ("x-botid-timestamp", .one "abc")], some "GET", some "/a", none⟩ =
    ⟨some ⟨false, none, .nan, some "Timestamp outside valid window", none⟩,
      .respond 403 ⟨some "Timestamp outside valid window", none⟩⟩ :=
  nan_timestamp_rejected toySpec.toCryptoApi
    (fun s => if s = "abc" then .nan else .int 0) 100 .revokedResponse
    ⟨[("x-botid", .one "bot_1"), ("x-botid-signature", .one "sig"),
      ("x-botid-timestamp", .one "abc")], some "GET", some "/a", none⟩
    (by decide) (by decide) (by decide) (by decide)

/-- C10: identity headers whose values are all the empty string are
treated exactly as absent headers: such a request takes the
no-identity-presented branch (403 "BotID verification required" when
enforcement is on and no override is set, not the incomplete-headers
400), and under every configuration the run coincides with the run on
the same request with its header map emptied. -/
theorem empty_string_headers_as_absent {Pub Priv : Type} (api : CryptoApi Pub Priv)
    (requireVerified hasOnUnverified : Bool) (jsNumber : String → JSNum)
    (now : Int) (keys : KeysOutcome) (req : MWRequest)
    (hb : getHeader req HEADER_BOT_ID = some "")
    (hs : getHeader req HEADER_SIGNATURE = some "")
    (ht : getHeader req HEADER_TIMESTAMP = some "") :
    (verifyBotID api true false jsNumber now keys req =
      ⟨none, .respond 403 ⟨some "BotID verification required", none⟩⟩) ∧
    verifyBotID api requireVerified hasOnUnverified jsNumber now keys req =
      verifyBotID api requireVerified hasOnUnverified jsNumber now keys
        ⟨[], req.method, req.url, req.originalUrl⟩ := by
  have hempty : ∀ name, getHeader ⟨[], req.method, req.url, req.originalUrl⟩ name
      = none := by
    intro name
    simp [getHeader]
  constructor
  · unfold verifyBotID
    simp [hb, hs, ht, truthy, rejectOr]
  · unfold verifyBotID
    simp [hb, hs, ht, hempty, truthy]

/-- Witness for C10: all three identity headers present with empty
values are rejected as "BotID verification required" (403), and the
run equals the run with no headers at all. -/
theorem empty_string_headers_as_absent_witness :
    (verifyBotID toySpec.toCryptoApi true false (fun _ => .nan) 0 .failure
      ⟨[("x-botid", .one ""), ("x-botid-signature", .one ""),
        ("x-botid-timestamp", .one "")], some "GET", some "/a", none⟩ =
      ⟨none, .respond 403 ⟨some "BotID verification required", none⟩⟩) ∧
    verifyBotID toySpec.toCryptoApi true false (fun _ => .nan) 0 .failure
      ⟨[("x-botid", .one ""), ("x-botid-signature", .one ""),
        ("x-botid-timestamp", .one "")], some "GET", some "/a", none⟩ =
      verifyBotID toySpec.toCryptoApi true false (fun _ => .nan) 0 .failure
        ⟨[], some "GET", some "/a", none⟩ :=
  empty_string_headers_as_absent toySpec.toCryptoApi true false (fun _ => .nan)
    0 .failure
    ⟨[("x-botid", .one ""), ("x-botid-signature", .one ""),
      ("x-botid-timestamp", .one "")], some "GET", some "/a", none⟩
    (by decide) (by decide) (by decide)

/-! ## Device-authorization poll loop

auth.ts `deviceLogin` lines 82-113: after the device code is issued and
the prompt is reported, the loop checks `Date.now() - startTime <
timeoutMs` before each sleep-and-poll, classifies the poll response,
and either terminates or loops.  One invocation is modelled by the list
of (elapsed milliseconds at the loop-head check, poll response) pairs
the run would observe; an exhausted list corresponds to the loop
condition turning false.  The auth-session slot (`~/.botid/auth.json`,
written by `saveAuthSession`, store.ts lines 76-81) is threaded
explicitly; `nowIso` models `new Date().toISOString()`. -/

/-- auth.ts lines 12-16: poll statuses. -/
inductive PollStatus where
  | pending
  | complete
  | expired
  | consumed
  | error
deriving DecidableEq, Repr

/-- auth.ts `PollResponse`: `{status, accessToken?, error?}`. -/
structure PollResponse where
  status : PollStatus
  accessToken : Option String
  error : Option String
deriving DecidableEq, Repr

/-- store.ts lines 22-26: the persisted auth session. -/
structure AuthSession where
  accessToken : String
  apiUrl : String
  authenticatedAt : String
deriving DecidableEq, Repr

/-- Final state of the poll loop: the auth-session slot and either a
token (the promise resolves) or an error message (the thrown Error). -/
structure LoginResult where
  slot : Option AuthSession
  outcome : Except String String
deriving Repr

/-- auth.ts lines 86-113: the poll loop.  Note the classification order
and conditions of the source: `complete` is terminal only when it also
carries a truthy access token (`poll.status === "complete" &&
poll.accessToken`); `expired`, `consumed` and `error` throw; anything
else — `pending`, or `complete` without a token — loops. -/
def deviceLoginLoop (apiUrl nowIso : String) (timeoutMs : Nat)
    (slot : Option AuthSession) : List (Nat × PollResponse) → LoginResult
  | [] => ⟨slot, .error "Authentication timed out. Please try again."⟩
  | (elapsed, poll) :: rest =>
    if timeoutMs ≤ elapsed then
      ⟨slot, .error "Authentication timed out. Please try again."⟩
    else if poll.status = .complete ∧ truthy poll.accessToken = true then
      ⟨some ⟨poll.accessToken.getD "", apiUrl, nowIso⟩,
        .ok (poll.accessToken.getD "")⟩
    else if poll.status = .expired then
      ⟨slot, .error "Device code expired. Please try again."⟩
    else if poll.status = .consumed then
      ⟨slot, .error "Device code already used. Please try again."⟩
    else if poll.status = .error then
      ⟨slot, .error (poll.error.getD "Authentication failed")⟩
    else
      deviceLoginLoop apiUrl nowIso timeoutMs slot rest

/-- A poll response on which the loop continues: not a token-carrying
`complete`, and none of the three throwing statuses. -/
def continuesPolling (p : PollResponse) : Prop :=
  ¬(p.status = .complete ∧ truthy p.accessToken = true) ∧
    p.status ≠ .expired ∧ p.status ≠ .consumed ∧ p.status ≠ .error

instance (p : PollResponse) : Decidable (continuesPolling p) := by
  unfold continuesPolling
  infer_instance

/-- C7: whenever the poll loop reaches a response with status
`complete` carrying an access token (after any run of in-window
responses it merely loops on), it persists the auth session
`{accessToken, apiUrl, nowIso}` to the session slot and resolves with
that token — terminal success, whatever polls would have followed. -/
theorem deviceLogin_complete_persists (apiUrl nowIso : String) (timeoutMs : Nat)
    (slot : Option AuthSession) (pre : List (Nat × PollResponse))
    (elapsed : Nat) (p : PollResponse) (rest : List (Nat × PollResponse))
    (token : String)
    (hpre : ∀ x ∈ pre, x.1 < timeoutMs ∧ continuesPolling x.2)
    (he : elapsed < timeoutMs)
    (hst : p.status = .complete)
    (htok : p.accessToken = some token) (hne : token ≠ "") :
    deviceLoginLoop apiUrl nowIso timeoutMs slot (pre ++ (elapsed, p) :: rest) =
      ⟨some ⟨token, apiUrl, nowIso⟩, .ok token⟩ := by
  induction pre with
  | nil =>
    simp only [List.nil_append, deviceLoginLoop]
    rw [if_neg (by omega), if_pos ⟨hst, by simp [htok, truthy, hne]⟩]
    simp [htok]
  | cons x pre ih =>
    have hx := hpre x (List.mem_cons_self x pre)
    have hx1 := hx.1
    obtain ⟨hx2, hx3, hx4, hx5⟩ := hx.2
    obtain ⟨e0, p0⟩ := x
    simp only [List.cons_append, deviceLoginLoop]
    rw [if_neg (by simp at hx1; omega), if_neg hx2, if_neg hx3, if_neg hx4,
      if_neg hx5]
    exact ih fun y hy => hpre y (List.mem_cons_of_mem (e0, p0) hy)

/-- Witness for C7: a pending poll at 0ms, then a complete poll with a
token at 5000ms, inside a 600000ms window. -/
theorem deviceLogin_complete_persists_witness :
    deviceLoginLoop "https://botid.net" "2026-01-01T00:00:00.000Z" 600000 none
      ([(0, ⟨.pending, none, none⟩)] ++
        (5000, ⟨.complete, some "tok_1", none⟩) :: []) =
      ⟨some ⟨"tok_1", "https://botid.net", "2026-01-01T00:00:00.000Z"⟩,
        .ok "tok_1"⟩ :=
  deviceLogin_complete_persists "https://botid.net" "2026-01-01T00:00:00.000Z"
    600000 none [(0, ⟨.pending, none, none⟩)] 5000
    ⟨.complete, some "tok_1", none⟩ [] "tok_1"
    (by decide) (by decide) rfl rfl (by decide)

/-! ## Credential store read path

store.ts reads `~/.botid/credentials.json` and `~/.botid/auth.json`.
`JSON.parse(raw) as CredentialsStore` is an unchecked cast, so the read
path is modelled on untyped JSON values: `parse` models `JSON.parse`
(`none` = it threw), and JavaScript property access and `Object.keys`
are given their real semantics, including the `TypeError` they throw on
`null`/`undefined`. -/

/-- A JSON value, as produced by a successful `JSON.parse`. -/
inductive Json where
  | jnull
  | jbool (b : Bool)
  | jnum (n : Int)
  | jstr (s : String)
  | jarr (elems : List Json)
  | jobj (fields : List (String × Json))

/-- State of a backing file: absent (`fs.existsSync` false), unreadable
(`readFileSync` throws), or readable with the given raw content. -/
inductive FileState where
  | absent
  | unreadable
  | content (raw : String)
deriving DecidableEq, Repr

/-- store.ts lines 34-45: `readStore()` returns `{agents: {}}` when the
credentials file is absent, and wraps read-plus-parse in try/catch,
returning `{agents: {}}` when either throws. -/
def readStore (parse : String → Option Json) (f : FileState) : Json :=
  match f with
  | .absent => .jobj [("agents", .jobj [])]
  | .unreadable => .jobj [("agents", .jobj [])]
  | .content raw =>
    match parse raw with
    | some v => v
    | none => .jobj [("agents", .jobj [])]

/-- JS property access `v[k]` on a parsed JSON value: throws a
`TypeError` on `null`, yields the field (or `undefined`) on an object,
and `undefined` on any other value.  (`JSON.parse` never returns
`undefined`, so the receiver here is a proper JSON value.) -/
def jsGetProp : Json → String → Except String (Option Json)
  | .jnull, _ => .error "TypeError: cannot read properties of null"
  | .jobj fields, k => .ok (fields.lookup k)
  | _, _ => .ok none

/-- JS property access on a possibly-`undefined` receiver. -/
def jsGetPropOpt : Option Json → String → Except String (Option Json)
  | none, _ => .error "TypeError: cannot read properties of undefined"
  | some v, k => jsGetProp v k

/-- JS `Object.keys(v)`: throws on `null`/`undefined`; own enumerable
keys of an object; index keys of an array or string; empty for other
primitives. -/
def objectKeys : Option Json → Except String (List String)
  | none => .error "TypeError: cannot convert undefined to object"
  | some .jnull => .error "TypeError: cannot convert null to object"
  | some (.jobj fields) => .ok (fields.map Prod.fst)
  | some (.jarr elems) => .ok ((List.range elems.length).map toString)
  | some (.jstr s) => .ok ((List.range s.length).map toString)
  | some _ => .ok []

/-- store.ts lines 54-56: `getCredentials(name)` is
`readStore().agents[name]`. -/
def getCredentials (parse : String → Option Json) (f : FileState)
    (name : String) : Except String (Option Json) := do
  let agents ← jsGetProp (readStore parse f) "agents"
  jsGetPropOpt agents name

/-- store.ts lines 64-66: `listAgents()` is
`Object.keys(readStore().agents)`. -/
def listAgents (parse : String → Option Json) (f : FileState) :
    Except String (List String) := do
  let agents ← jsGetProp (readStore parse f) "agents"
  objectKeys agents

/-- store.ts lines 83-92: `getAuthSession()` returns `undefined` when
the session file is absent, and wraps read-plus-parse in try/catch,
returning `undefined` when either throws; otherwise it returns the
parsed value unchecked. -/
def getAuthSession (parse : String → Option Json) (f : FileState) : Option Json :=
  match f with
  | .absent => none
  | .unreadable => none
  | .content raw => parse raw

/-- C8 (counterexample to the claim as stated): a corrupted credentials
file whose content is `"null"` is valid JSON, so `JSON.parse` succeeds
and returns `null`; `readStore()` then returns `null`, and both
`getCredentials` (`null.agents[name]`) and `listAgents`
(`Object.keys(null.agents)`) throw a `TypeError` instead of degrading
to "not found". -/
theorem store_corrupt_shape_counterexample :
    (getCredentials (fun s => if s = "null" then some .jnull else none)
      (.content "null") "alice").isOk = false ∧
    (listAgents (fun s => if s = "null" then some .jnull else none)
      (.content "null")).isOk = false := by
  constructor <;> rfl

/-- C8 (amended): when the backing file is unreadable or its content
fails to parse as JSON, every credential-store read degrades without
raising: `getCredentials` returns absent, `listAgents` returns the
empty list, `getAuthSession` returns absent.  (A file that parses to
valid JSON of the wrong shape, such as `null`, instead makes
`getCredentials` and `listAgents` throw.) -/
theorem store_reads_degrade (parse : String → Option Json) (f : FileState)
    (name : String)
    (h : f = .unreadable ∨ ∃ raw, f = .content raw ∧ parse raw = none) :
    getCredentials parse f name = .ok none ∧
    listAgents parse f = .ok [] ∧
    getAuthSession parse f = none := by
  have hread : readStore parse f = .jobj [("agents", .jobj [])] := by
    rcases h with h | ⟨raw, hf, hp⟩
    · subst h; rfl
    · subst hf; simp [readStore, hp]
  have hsess : getAuthSession parse f = none := by
    rcases h with h | ⟨raw, hf, hp⟩
    · subst h; rfl
    · subst hf; simp [getAuthSession, hp]
  refine ⟨?_, ?_, hsess⟩
  · simp only [getCredentials, hread]
    rfl
  · simp only [listAgents, hread]
    rfl

/-- Witness for C8 (amended) at an unreadable credentials file. -/
theorem store_reads_degrade_witness :
    getCredentials (fun _ => none) .unreadable "alice" = .ok none ∧
    listAgents (fun _ => none) .unreadable = .ok [] ∧
    getAuthSession (fun _ => none) .unreadable = none :=
  store_reads_degrade (fun _ => none) .unreadable "alice" (Or.inl rfl)
